import Mathlib

/-!
Verification of the snake-game core of src/main.cpp.

The embedding translates the game logic of main.cpp into Lean:
  - The types Vec2i, GameConfig and the class Snake are translated field by
    field; deque push_front / pop_back become list cons / dropLast.
  - C++ float time values (moveInterval, acc, dt) are modelled as exact
    rationals; the literals 0.12f, 0.92f, 0.04f become 12/100, 92/100, 4/100.
  - The pseudo-random generator feeding placeFood is modelled by an explicit
    stream of candidate cells (a list); placeFood returns the first candidate
    not occupied by the snake, or none when the finite stream is exhausted
    (the C++ loop would keep sampling; every "some" result is a faithful run).
  - The main loop is split into the event handlers (keys P, R and the four
    direction keys, lines 125-140), one iteration of the fixed-step while
    loop (stepOnce, lines 149-172), the while loop itself with explicit fuel
    (stepLoop; "none" signals fuel exhaustion and is never a C++ behaviour),
    and the per-frame update dispatch (frameUpdate, lines 144-177).
  - Reachable states are the states between those primitive operations,
    generated by the relation Step / Reachable.
-/

set_option autoImplicit false

-- The rational operations of the standard library are marked irreducible,
-- which blocks the evaluation of concrete game traces by the decide tactic;
-- restore their reducibility (their definitions are ordinary computable
-- functions, so kernel evaluation is sound and unaffected by this marking).
set_option allowUnsafeReducibility true
attribute [semireducible] Rat.mul Rat.add Rat.sub Rat.div Rat.inv Rat.neg

/-- sf::Vector2i as used by the game: an integer grid coordinate. -/
structure Vec2i where
  x : Int
  y : Int
deriving DecidableEq, Repr

instance : Add Vec2i where
  add a b := ⟨a.x + b.x, a.y + b.y⟩

theorem Vec2i.add_def (a b : Vec2i) : a + b = ⟨a.x + b.x, a.y + b.y⟩ := rfl

/-- GameConfig from main.cpp lines 14-19. moveInterval is the only field the
program mutates (speed-up at line 171). -/
structure GameConfig where
  cellSize : Int
  cols : Int
  rows : Int
  moveInterval : ℚ
deriving DecidableEq, Repr

/-- The default-constructed GameConfig used by main (cellSize 20, 32 x 24
grid, 0.12 seconds per move). -/
def defaultConfig : GameConfig :=
  { cellSize := 20, cols := 32, rows := 24, moveInterval := 12/100 }

/-- The Snake class, lines 21-61: deque of cells (front is head), current
direction, pending-growth flag. -/
structure Snake where
  body : List Vec2i
  dir : Vec2i
  growNext : Bool
deriving DecidableEq, Repr

/-- The Snake constructor, lines 27-31: cells start, start-(1,0), ...,
start-(initialLength-1, 0); dir and growNext take their member initializers
(1,0) and false. -/
def Snake.init (start : Vec2i) (initialLength : Nat) : Snake :=
  { body := (List.range initialLength).map fun (i : Nat) => ⟨start.x - (i : Int), start.y⟩
    dir := ⟨1, 0⟩
    growNext := false }

/-- Snake::head, line 33: body.front(). The C++ call is undefined on an empty
deque; the default value only stands in for that undefined case. -/
def Snake.head (s : Snake) : Vec2i := s.body.headD ⟨0, 0⟩

/-- Snake::setDirection, lines 35-39: ignore d when it is the exact reverse
of dir and the body has more than one segment, else store it. -/
def Snake.setDirection (s : Snake) (d : Vec2i) : Snake :=
  if 1 < s.body.length ∧ d = ⟨-s.dir.x, -s.dir.y⟩ then s
  else { s with dir := d }

/-- Snake::move, lines 41-46: push the new head on the front, pop the tail
unless growth is pending, clear the growth flag. -/
def Snake.move (s : Snake) : Snake :=
  let newHead := s.head + s.dir
  let b := newHead :: s.body
  { body := if s.growNext then b else b.dropLast
    dir := s.dir
    growNext := false }

/-- Snake::grow, line 48. -/
def Snake.grow (s : Snake) : Snake := { s with growNext := true }

/-- Snake::collidesWithSelf, lines 50-55: the head equals some later body
segment (indices 1 and up). -/
def Snake.collidesWithSelf (s : Snake) : Prop := s.head ∈ s.body.tail

instance (s : Snake) : Decidable s.collidesWithSelf := by
  unfold Snake.collidesWithSelf
  infer_instance

/-- Snake::occupies, lines 57-60. -/
def Snake.occupies (s : Snake) (p : Vec2i) : Prop := p ∈ s.body

instance (s : Snake) (p : Vec2i) : Decidable (s.occupies p) := by
  unfold Snake.occupies
  infer_instance

/-- The placeFood lambda, lines 87-93, with the random-number generator
replaced by an explicit candidate stream: return the first candidate cell the
snake does not occupy. none models exhausting the finite stream (the C++
loop would keep drawing samples). -/
def placeFood (s : Snake) : List Vec2i → Option Vec2i
  | [] => none
  | p :: rest => if s.occupies p then placeFood s rest else some p

/-- The mutable state of main's loop: the snake, the food cell, score, the
paused and gameOver flags (lines 96-98), the config (whose moveInterval
line 171 mutates) and the fixed-step accumulator acc (line 116). -/
structure GameState where
  snake : Snake
  food : Vec2i
  score : Int
  paused : Bool
  gameOver : Bool
  cfg : GameConfig
  acc : ℚ
deriving DecidableEq, Repr

/-- startPos, line 82: the grid center (cols/2, rows/2). -/
def startPos (cfg : GameConfig) : Vec2i := ⟨cfg.cols / 2, cfg.rows / 2⟩

/-- Lines 82-98: construct the snake (length 5 at the center), place the
first food, zero the score and flags. -/
def initialState (cfg : GameConfig) (samples : List Vec2i) : Option GameState :=
  let s := Snake.init (startPos cfg) 5
  (placeFood s samples).map fun f =>
    { snake := s, food := f, score := 0, paused := false, gameOver := false
      cfg := cfg, acc := 0 }

/-- Key P, line 125: toggle pause. -/
def pressP (g : GameState) : GameState := { g with paused := !g.paused }

/-- Key R, lines 126-134: rebuild the snake at the start position with
length 5, place new food, zero the score, clear both flags, restart the move
clock. Neither cfg (so not cfg.moveInterval) nor acc is touched. -/
def pressR (g : GameState) (samples : List Vec2i) : Option GameState :=
  let s := Snake.init (startPos g.cfg) 5
  (placeFood s samples).map fun f =>
    { g with snake := s, food := f, score := 0, paused := false, gameOver := false }

/-- Direction keys, lines 135-140: forwarded to setDirection only when the
game is not over. -/
def pressDir (g : GameState) (d : Vec2i) : GameState :=
  if g.gameOver then g else { g with snake := g.snake.setDirection d }

/-- The boundary test of line 155: h.x < 0, h.x >= cols, h.y < 0 or
h.y >= rows. -/
def outOfGrid (cfg : GameConfig) (p : Vec2i) : Prop :=
  p.x < 0 ∨ cfg.cols ≤ p.x ∨ p.y < 0 ∨ cfg.rows ≤ p.y

instance (cfg : GameConfig) (p : Vec2i) : Decidable (outOfGrid cfg p) := by
  unfold outOfGrid
  infer_instance

/-- One iteration of the fixed-step while loop, lines 149-172: consume one
interval from acc, move the snake, then check boundary collision, self
collision, and food (grow, score += 10, relocate food, and multiply the
interval by 0.92 when the score is a multiple of 50 and the interval is
still above 0.04). none only arises when eating and the food sample stream
runs out. -/
def stepOnce (g : GameState) (samples : List Vec2i) : Option GameState :=
  let g1 : GameState := { g with acc := g.acc - g.cfg.moveInterval }
  let s := g1.snake.move
  if outOfGrid g1.cfg s.head then
    some { g1 with snake := s, gameOver := true }
  else if s.collidesWithSelf then
    some { g1 with snake := s, gameOver := true }
  else if s.head = g1.food then
    let s2 := s.grow
    let newScore := g1.score + 10
    (placeFood s2 samples).map fun f =>
      { g1 with
        snake := s2, score := newScore, food := f
        cfg :=
          if newScore % 50 = 0 ∧ 4/100 < g1.cfg.moveInterval then
            { g1.cfg with moveInterval := g1.cfg.moveInterval * (92/100) }
          else g1.cfg }
  else
    some { g1 with snake := s }

/-- The while loop of line 149: as long as acc is at least the (freshly
read) move interval, run one step; a step that set gameOver breaks out of
the loop. The fuel bounds the number of iterations; none on fuel
exhaustion (never a C++ behaviour) or on a failing food placement. -/
def stepLoop : Nat → GameState → List (List Vec2i) → Option GameState
  | 0, _, _ => none
  | fuel + 1, g, sss =>
    if g.cfg.moveInterval ≤ g.acc then
      match stepOnce g (sss.headD []) with
      | none => none
      | some g' => if g'.gameOver then some g' else stepLoop fuel g' sss.tail
    else
      some g

/-- The per-frame update, lines 144-177: when neither paused nor game over,
add the frame's elapsed time dt to acc and drain the fixed-step loop;
otherwise only the move clock is restarted, which discards dt — acc is left
exactly as it was. -/
def frameUpdate (fuel : Nat) (g : GameState) (dt : ℚ)
    (sss : List (List Vec2i)) : Option GameState :=
  if ¬g.paused ∧ ¬g.gameOver then
    stepLoop fuel { g with acc := g.acc + dt } sss
  else
    some g

/-- The four direction vectors the key handler can send (lines 136-139). -/
def dirKeys : List Vec2i := [⟨0, -1⟩, ⟨0, 1⟩, ⟨-1, 0⟩, ⟨1, 0⟩]

/-- One observable transition of the main loop: a key event or one frame
update (with nonnegative elapsed time). -/
inductive Step : GameState → GameState → Prop where
  | keyP {g : GameState} : Step g (pressP g)
  | keyR {g g' : GameState} (samples : List Vec2i)
      (h : pressR g samples = some g') : Step g g'
  | keyDir {g : GameState} (d : Vec2i) (hd : d ∈ dirKeys) : Step g (pressDir g d)
  | frame {g g' : GameState} (fuel : Nat) (dt : ℚ) (sss : List (List Vec2i))
      (hdt : 0 ≤ dt) (h : frameUpdate fuel g dt sss = some g') : Step g g'

/-- States reachable from program start (lines 82-98) by main-loop
transitions. -/
inductive Reachable : GameState → Prop where
  | init (samples : List Vec2i) {g : GameState}
      (h : initialState defaultConfig samples = some g) : Reachable g
  | step {g g' : GameState} (hg : Reachable g) (hs : Step g g') : Reachable g'

/-- The score / move-interval dynamics of one food pickup (lines 168-171)
in isolation: score rises by 10, and when the new score is a multiple of 50
and the interval is above 0.04 the interval is multiplied by 0.92. -/
def eatUpdate (p : Int × ℚ) : Int × ℚ :=
  (p.1 + 10,
   if (p.1 + 10) % 50 = 0 ∧ 4/100 < p.2 then p.2 * (92/100) else p.2)

/-! ## Basic lemmas about the snake operations -/

theorem Snake.move_body (s : Snake) (hne : s.body ≠ []) :
    s.move.body =
      (s.head + s.dir) :: (if s.growNext then s.body else s.body.dropLast) := by
  unfold Snake.move
  cases hg : s.growNext with
  | true => simp [hg]
  | false =>
    cases hb : s.body with
    | nil => exact absurd hb hne
    | cons x xs => simp [hg, hb, List.dropLast_cons₂]

theorem Snake.move_head (s : Snake) (hne : s.body ≠ []) :
    s.move.head = s.head + s.dir := by
  rw [Snake.head, Snake.move_body s hne]
  rfl

theorem Snake.move_dir (s : Snake) : s.move.dir = s.dir := rfl

theorem Snake.move_growNext (s : Snake) : s.move.growNext = false := rfl

theorem Snake.move_length (s : Snake) (hne : s.body ≠ []) :
    s.move.body.length =
      if s.growNext then s.body.length + 1 else s.body.length := by
  rw [Snake.move_body s hne]
  cases hg : s.growNext with
  | true => simp
  | false =>
    simp only [if_false, Bool.false_eq_true, List.length_cons]
    have : s.body.length ≠ 0 := by
      simpa [List.length_eq_zero] using hne
    simp [List.length_dropLast]
    omega

theorem Snake.move_length_pos (s : Snake) (hne : s.body ≠ []) :
    1 ≤ s.move.body.length := by
  rw [Snake.move_body s hne]
  simp

theorem Snake.move_body_ne_nil (s : Snake) (hne : s.body ≠ []) :
    s.move.body ≠ [] := by
  rw [Snake.move_body s hne]
  simp

theorem Snake.collidesWithSelf_move (s : Snake) (hne : s.body ≠ []) :
    s.move.collidesWithSelf ↔
      (s.head + s.dir) ∈ (if s.growNext then s.body else s.body.dropLast) := by
  rw [Snake.collidesWithSelf, Snake.move_head s hne, Snake.move_body s hne]
  rfl

theorem Snake.move_nodup (s : Snake) (hne : s.body ≠ []) (hnd : s.body.Nodup)
    (hc : ¬ s.move.collidesWithSelf) : s.move.body.Nodup := by
  rw [Snake.move_body s hne]
  rw [Snake.collidesWithSelf_move s hne] at hc
  refine List.nodup_cons.mpr ⟨hc, ?_⟩
  cases hg : s.growNext with
  | true => simpa using hnd
  | false =>
    simp only [Bool.false_eq_true, if_false]
    exact hnd.sublist (List.dropLast_sublist s.body)

theorem Snake.getLast_not_mem_dropLast (l : List Vec2i) (hne : l ≠ [])
    (hnd : l.Nodup) : l.getLast hne ∉ l.dropLast := by
  intro hmem
  have hsplit := List.dropLast_append_getLast hne
  have : (l.dropLast ++ [l.getLast hne]).Nodup := by rwa [hsplit]
  rcases List.nodup_append.mp this with ⟨-, -, hdisj⟩
  exact hdisj hmem (List.mem_singleton_self _)

theorem Snake.init_body_length (start : Vec2i) (n : Nat) :
    (Snake.init start n).body.length = n := by
  simp only [Snake.init, List.length_map, List.length_range]

theorem Snake.init_body_nodup (start : Vec2i) (n : Nat) :
    (Snake.init start n).body.Nodup := by
  unfold Snake.init
  refine List.Nodup.map ?_ (List.nodup_range n)

  intro i j hij
  have hx : start.x - (i : Int) = start.x - (j : Int) := congrArg Vec2i.x hij
  omega

theorem placeFood_not_occupies (s : Snake) (l : List Vec2i) (f : Vec2i)
    (h : placeFood s l = some f) : ¬ s.occupies f := by
  induction l with
  | nil => simp [placeFood] at h
  | cons p rest ih =>
    rw [placeFood] at h
    split at h
    · exact ih h
    · cases h
      assumption

theorem Snake.setDirection_body (s : Snake) (d : Vec2i) :
    (s.setDirection d).body = s.body := by
  unfold Snake.setDirection
  split <;> rfl

theorem Snake.setDirection_growNext (s : Snake) (d : Vec2i) :
    (s.setDirection d).growNext = s.growNext := by
  unfold Snake.setDirection
  split <;> rfl

theorem Snake.grow_body (s : Snake) : s.grow.body = s.body := rfl

/-- Exhaustive description of the four outcomes of one simulation step:
boundary collision, self collision, food pickup, or a plain move. -/
theorem stepOnce_cases (g : GameState) (samples : List Vec2i) (g' : GameState)
    (h : stepOnce g samples = some g') :
    (outOfGrid g.cfg (g.snake.move).head ∧
      g' = { g with acc := g.acc - g.cfg.moveInterval, snake := g.snake.move,
                    gameOver := true }) ∨
    (¬ outOfGrid g.cfg (g.snake.move).head ∧ (g.snake.move).collidesWithSelf ∧
      g' = { g with acc := g.acc - g.cfg.moveInterval, snake := g.snake.move,
                    gameOver := true }) ∨
    (¬ outOfGrid g.cfg (g.snake.move).head ∧ ¬ (g.snake.move).collidesWithSelf ∧
      (g.snake.move).head = g.food ∧
      ∃ f : Vec2i, placeFood (g.snake.move).grow samples = some f ∧
        g' = { g with acc := g.acc - g.cfg.moveInterval, snake := (g.snake.move).grow,
                      score := g.score + 10, food := f,
                      cfg :=
                        if (g.score + 10) % 50 = 0 ∧ 4/100 < g.cfg.moveInterval then
                          { g.cfg with moveInterval := g.cfg.moveInterval * (92/100) }
                        else g.cfg }) ∨
    (¬ outOfGrid g.cfg (g.snake.move).head ∧ ¬ (g.snake.move).collidesWithSelf ∧
      (g.snake.move).head ≠ g.food ∧
      g' = { g with acc := g.acc - g.cfg.moveInterval, snake := g.snake.move }) := by
  simp only [stepOnce] at h
  split at h
  · exact Or.inl ⟨by assumption, by cases h; rfl⟩
  · split at h
    · exact Or.inr (Or.inl ⟨by assumption, by assumption, by cases h; rfl⟩)
    · split at h
      · rcases Option.map_eq_some'.mp h with ⟨f, hf, hg'⟩
        exact Or.inr (Or.inr (Or.inl ⟨by assumption, by assumption, by assumption,
          f, hf, hg'.symm⟩))
      · exact Or.inr (Or.inr (Or.inr ⟨by assumption, by assumption, by assumption,
          by cases h; rfl⟩))

/-- The invariant behind C7: while the game is not over the body cells are
pairwise distinct, and the body is never empty. -/
def GameInv (g : GameState) : Prop :=
  (g.gameOver = false → g.snake.body.Nodup) ∧ 1 ≤ g.snake.body.length

theorem GameInv_body_ne_nil (g : GameState) (hi : GameInv g) : g.snake.body ≠ [] :=
  List.length_pos.mp hi.2

theorem stepOnce_inv (g : GameState) (samples : List Vec2i) (g' : GameState)
    (hi : GameInv g) (h : stepOnce g samples = some g') : GameInv g' := by
  have hne : g.snake.body ≠ [] := GameInv_body_ne_nil g hi
  rcases stepOnce_cases g samples g' h with
    ⟨hw, rfl⟩ | ⟨hw, hc, rfl⟩ | ⟨hw, hc, hf, f, hpf, rfl⟩ | ⟨hw, hc, hf, rfl⟩
  · exact ⟨fun hfalse => by simp at hfalse, Snake.move_length_pos g.snake hne⟩
  · exact ⟨fun hfalse => by simp at hfalse, Snake.move_length_pos g.snake hne⟩
  · refine ⟨fun hgo => ?_, ?_⟩
    · have hnd := hi.1 hgo
      simpa [Snake.grow_body] using Snake.move_nodup g.snake hne hnd hc
    · simpa [Snake.grow_body] using Snake.move_length_pos g.snake hne
  · refine ⟨fun hgo => ?_, Snake.move_length_pos g.snake hne⟩
    exact Snake.move_nodup g.snake hne (hi.1 hgo) hc

theorem stepLoop_inv (fuel : Nat) : ∀ (g : GameState) (sss : List (List Vec2i))
    (g' : GameState), GameInv g → stepLoop fuel g sss = some g' → GameInv g' := by
  induction fuel with
  | zero => intro g sss g' _ h; simp [stepLoop] at h
  | succ n ih =>
    intro g sss g' hi h
    rw [stepLoop] at h
    split at h
    · cases heq : stepOnce g (sss.headD []) with
      | none => rw [heq] at h; simp at h
      | some g1 =>
        rw [heq] at h
        simp only at h
        have hi1 : GameInv g1 := stepOnce_inv g (sss.headD []) g1 hi heq
        split at h
        · cases h; exact hi1
        · exact ih g1 sss.tail g' hi1 h
    · cases h; exact hi

theorem frameUpdate_inv (fuel : Nat) (g : GameState) (dt : ℚ)
    (sss : List (List Vec2i)) (g' : GameState) (hi : GameInv g)
    (h : frameUpdate fuel g dt sss = some g') : GameInv g' := by
  unfold frameUpdate at h
  split at h
  · exact stepLoop_inv fuel { g with acc := g.acc + dt } sss g' ⟨hi.1, hi.2⟩ h
  · cases h; exact hi

theorem pressR_inv (g : GameState) (samples : List Vec2i) (g' : GameState)
    (h : pressR g samples = some g') : GameInv g' := by
  simp only [pressR] at h
  rcases Option.map_eq_some'.mp h with ⟨f, -, hg'⟩
  rw [← hg']
  refine ⟨fun _ => ?_, ?_⟩
  · exact Snake.init_body_nodup (startPos g.cfg) 5
  · rw [Snake.init_body_length]
    omega

theorem pressP_inv (g : GameState) (hi : GameInv g) : GameInv (pressP g) := hi

theorem pressDir_inv (g : GameState) (d : Vec2i) (hi : GameInv g) :
    GameInv (pressDir g d) := by
  unfold pressDir
  split
  · exact hi
  · exact ⟨fun hgo => by simpa [Snake.setDirection_body] using hi.1 hgo,
      by simpa [Snake.setDirection_body] using hi.2⟩

theorem initialState_inv (cfg : GameConfig) (samples : List Vec2i)
    (g : GameState) (h : initialState cfg samples = some g) : GameInv g := by
  simp only [initialState] at h
  rcases Option.map_eq_some'.mp h with ⟨f, -, hg⟩
  rw [← hg]
  refine ⟨fun _ => Snake.init_body_nodup (startPos cfg) 5, ?_⟩
  rw [Snake.init_body_length]
  omega

theorem Reachable_inv (g : GameState) (hr : Reachable g) : GameInv g := by
  induction hr with
  | init samples h => exact initialState_inv defaultConfig samples _ h
  | step hg hs ih =>
    cases hs with
    | keyP => exact pressP_inv _ ih
    | keyR samples h => exact pressR_inv _ samples _ h
    | keyDir d hd => exact pressDir_inv _ d ih
    | frame fuel dt sss hdt h => exact frameUpdate_inv fuel _ dt sss _ ih h

/-! ## Concrete states used to witness the theorems -/

/-- The initial game state produced by lines 82-98 when the first food sample
is the free cell (0,0): snake of length 5 at the grid center, facing right. -/
def gInit : GameState :=
  { snake := { body := [⟨16, 12⟩, ⟨15, 12⟩, ⟨14, 12⟩, ⟨13, 12⟩, ⟨12, 12⟩]
               dir := ⟨1, 0⟩, growNext := false }
    food := ⟨0, 0⟩, score := 0, paused := false, gameOver := false
    cfg := defaultConfig, acc := 0 }

/-! ## The claims -/

/-- C7: in every state reachable from the initial configuration whose
lifecycle state is not GameOver, the snake's body positions are pairwise
distinct, and the body length is at least 1. -/
theorem reachable_nodup (g : GameState) (hr : Reachable g)
    (hgo : g.gameOver = false) :
    g.snake.body.Nodup ∧ 1 ≤ g.snake.body.length :=
  ⟨(Reachable_inv g hr).1 hgo, (Reachable_inv g hr).2⟩

theorem reachable_nodup_witness :
    gInit.snake.body.Nodup ∧ 1 ≤ gInit.snake.body.length :=
  reachable_nodup gInit (Reachable.init [⟨0, 0⟩] (by decide)) (by decide)

/-- C3 (amended): whenever the session is Paused or GameOver, the frame
discards the clock's elapsed time without adding it to the accumulator and
leaves the whole state — the accumulator included — unchanged; the
accumulator is carried over as-is rather than zeroed. -/
theorem pausedFrame_behaviour (fuel : Nat) (g : GameState) (dt : ℚ)
    (sss : List (List Vec2i)) (h : g.paused = true ∨ g.gameOver = true) :
    frameUpdate fuel g dt sss = some g := by
  unfold frameUpdate
  rcases h with h | h <;> simp [h]

theorem pausedFrame_behaviour_witness :
    frameUpdate 30 (pressP gInit) (99/100) [] = some (pressP gInit) :=
  pausedFrame_behaviour 30 (pressP gInit) (99/100) [] (Or.inl (by decide))

/-- C3 (counterexample to the claim as stated): a frame of 2.16 seconds runs
the snake into the right wall (GameOver) leaving 0.24 seconds in the
accumulator; the next frame, spent in GameOver, keeps the accumulator at
0.24 rather than discarding it, and after a restart a frame of elapsed time
zero immediately performs two catch-up steps, moving the head from the start
cell (16,12) to (18,12). -/
theorem pausedFrame_counterexample :
    ((initialState defaultConfig [⟨0, 0⟩]).bind fun a =>
      (frameUpdate 30 a (216/100) []).bind fun b =>
        (frameUpdate 30 b (50/100) []).bind fun c =>
          (pressR c [⟨0, 0⟩]).bind fun d =>
            (frameUpdate 30 d 0 []).map fun e =>
              (b.gameOver, b.acc, c.acc, d.snake.head, e.snake.head))
      = some (true, 6/25, 6/25, ⟨16, 12⟩, ⟨18, 12⟩) ∧
    (6/25 : ℚ) ≠ 0 := by
  constructor
  · decide
  · decide

/-- C1 (amended): restart from any state rebuilds the snake at the fixed
start position with the fixed initial length 5, resets the score to 0,
clears pause, relocates the food to a cell the new snake does not occupy,
and forces the state back to Running — but it does not reset the move
interval (nor the accumulator): both keep their current values. -/
theorem restart_behaviour (g : GameState) (samples : List Vec2i)
    (g' : GameState) (h : pressR g samples = some g') :
    g'.snake = Snake.init (startPos g.cfg) 5 ∧
    g'.snake.body.length = 5 ∧
    g'.score = 0 ∧
    g'.paused = false ∧
    g'.gameOver = false ∧
    ¬ g'.snake.occupies g'.food ∧
    g'.cfg = g.cfg ∧
    g'.acc = g.acc := by
  simp only [pressR] at h
  rcases Option.map_eq_some'.mp h with ⟨f, hf, hg'⟩
  subst hg'
  exact ⟨rfl, Snake.init_body_length _ 5, rfl, rfl, rfl,
    placeFood_not_occupies _ samples f hf, rfl, rfl⟩

theorem restart_behaviour_witness :
    gInit.snake = Snake.init (startPos gInit.cfg) 5 ∧
    gInit.snake.body.length = 5 ∧
    gInit.score = 0 ∧
    gInit.paused = false ∧
    gInit.gameOver = false ∧
    ¬ gInit.snake.occupies gInit.food ∧
    gInit.cfg = gInit.cfg ∧
    gInit.acc = gInit.acc :=
  restart_behaviour gInit [⟨0, 0⟩] gInit (by decide)

/-- C1 (counterexample to the claim as stated): a run that eats five food
cells reaches score 50 and accelerates the move interval to 69/625; pressing
R afterwards rebuilds the snake and zeroes the score, but the move interval
stays at 69/625 instead of returning to the configured initial 12/100. -/
theorem restart_counterexample :
    ((initialState defaultConfig [⟨17, 12⟩]).bind fun a =>
      (frameUpdate 30 a (60/100)
          [[⟨18, 12⟩], [⟨19, 12⟩], [⟨20, 12⟩], [⟨21, 12⟩], [⟨22, 12⟩]]).bind fun b =>
        (pressR b [⟨0, 0⟩]).map fun c =>
          (b.score, b.cfg.moveInterval, c.score, c.gameOver, c.paused,
            c.cfg.moveInterval))
      = some (50, 69/625, 0, false, false, 69/625) ∧
    (69/625 : ℚ) ≠ defaultConfig.moveInterval := by
  constructor
  · decide
  · decide

/-- C8: setDirection with the exact reverse of the stored direction while
the body is longer than 1 is a no-op; otherwise it stores d, changes nothing
else, and the next move uses d; a second call between two steps overwrites
the first (the final stored direction is the last accepted one). -/
theorem setDirection_spec (s : Snake) (d d1 d2 : Vec2i) :
    (1 < s.body.length → d = ⟨-s.dir.x, -s.dir.y⟩ → s.setDirection d = s) ∧
    (¬(1 < s.body.length ∧ d = ⟨-s.dir.x, -s.dir.y⟩) →
      s.setDirection d = { s with dir := d } ∧
      (s.body ≠ [] → (s.setDirection d).move.head = s.head + d)) ∧
    (¬(1 < (s.setDirection d1).body.length ∧
        d2 = ⟨-(s.setDirection d1).dir.x, -(s.setDirection d1).dir.y⟩) →
      (s.setDirection d1).setDirection d2 = { s with dir := d2 }) := by
  refine ⟨?_, ?_, ?_⟩
  · intro hl hd
    unfold Snake.setDirection
    rw [if_pos ⟨hl, hd⟩]
  · intro hn
    have hset : s.setDirection d = { s with dir := d } := by
      unfold Snake.setDirection
      rw [if_neg hn]
    refine ⟨hset, fun hb => ?_⟩
    rw [hset,
      Snake.move_head { body := s.body, dir := d, growNext := s.growNext } hb]
    rfl
  · intro hn2
    by_cases h1 : 1 < s.body.length ∧ d1 = ⟨-s.dir.x, -s.dir.y⟩
    · have ht : s.setDirection d1 = s := by
        unfold Snake.setDirection
        rw [if_pos h1]
      rw [ht] at hn2 ⊢
      unfold Snake.setDirection
      rw [if_neg hn2]
    · have ht : s.setDirection d1 = { s with dir := d1 } := by
        unfold Snake.setDirection
        rw [if_neg h1]
      rw [ht] at hn2 ⊢
      unfold Snake.setDirection
      rw [if_neg hn2]

theorem setDirection_spec_witness :
    (Snake.init ⟨16, 12⟩ 5).setDirection ⟨-1, 0⟩ = Snake.init ⟨16, 12⟩ 5 ∧
    (Snake.init ⟨16, 12⟩ 5).setDirection ⟨0, -1⟩ =
      { Snake.init ⟨16, 12⟩ 5 with dir := ⟨0, -1⟩ } ∧
    ((Snake.init ⟨16, 12⟩ 5).setDirection ⟨0, -1⟩).move.head =
      (Snake.init ⟨16, 12⟩ 5).head + ⟨0, -1⟩ ∧
    ((Snake.init ⟨16, 12⟩ 5).setDirection ⟨0, -1⟩).setDirection ⟨-1, 0⟩ =
      { Snake.init ⟨16, 12⟩ 5 with dir := ⟨-1, 0⟩ } :=
  ⟨(setDirection_spec (Snake.init ⟨16, 12⟩ 5) ⟨-1, 0⟩ ⟨0, -1⟩ ⟨-1, 0⟩).1
      (by decide) (by decide),
   ((setDirection_spec (Snake.init ⟨16, 12⟩ 5) ⟨0, -1⟩ ⟨0, -1⟩ ⟨-1, 0⟩).2.1
      (by decide)).1,
   ((setDirection_spec (Snake.init ⟨16, 12⟩ 5) ⟨0, -1⟩ ⟨0, -1⟩ ⟨-1, 0⟩).2.1
      (by decide)).2 (by decide),
   (setDirection_spec (Snake.init ⟨16, 12⟩ 5) ⟨0, -1⟩ ⟨0, -1⟩ ⟨-1, 0⟩).2.2
      (by decide)⟩

/-- C9: from the initial state, one step right, then the two direction keys
Up and Left issued before the next step: each call passes the reversal check
against the currently stored direction (Up is not the reverse of Right, Left
is not the reverse of Up), leaving the stored direction Left — the exact
reverse of the direction the preceding step used — so the next step moves
the head backwards onto the second body segment and the game ends in self
collision. -/
theorem double_turn_reversal :
    ((initialState defaultConfig [⟨0, 0⟩]).bind fun g0 =>
      (stepOnce g0 []).bind fun gA =>
        (stepOnce (pressDir (pressDir gA ⟨0, -1⟩) ⟨-1, 0⟩) []).map fun gB =>
          (gA.snake.dir,
           (pressDir (pressDir gA ⟨0, -1⟩) ⟨-1, 0⟩).snake.dir,
           gB.snake.head, gA.snake.body[1]?, gB.gameOver,
           decide gB.snake.collidesWithSelf))
      = some (⟨1, 0⟩, ⟨-1, 0⟩, ⟨16, 12⟩, some ⟨16, 12⟩, true, true) := by
  decide

/-- The concrete tail-chase configuration for C10: a snake closed into a
2 x 2 loop whose head is about to move onto the cell its tail currently
occupies. -/
def gTail : GameState :=
  { snake := { body := [⟨5, 5⟩, ⟨6, 5⟩, ⟨6, 6⟩, ⟨5, 6⟩], dir := ⟨0, 1⟩
               growNext := false }
    food := ⟨0, 0⟩, score := 0, paused := false, gameOver := false
    cfg := defaultConfig, acc := 12/100 }

/-- The state after the tail-chase step of gTail. -/
def gTailOut : GameState :=
  { snake := { body := [⟨5, 6⟩, ⟨5, 5⟩, ⟨6, 5⟩, ⟨6, 6⟩], dir := ⟨0, 1⟩
               growNext := false }
    food := ⟨0, 0⟩, score := 0, paused := false, gameOver := false
    cfg := defaultConfig, acc := 0 }

/-- C10: when the growth flag is unset and the head moves exactly onto the
cell the current tail occupies, the tail is popped before the self-collision
check, so no self collision is detected and the session stays Running. -/
theorem tail_chase_safe (g : GameState) (samples : List Vec2i) (g' : GameState)
    (hp : g.paused = false) (hgo : g.gameOver = false)
    (hgrow : g.snake.growNext = false)
    (hne : g.snake.body ≠ [])
    (hnodup : g.snake.body.Nodup)
    (htail : g.snake.head + g.snake.dir = g.snake.body.getLast hne)
    (hwall : ¬ outOfGrid g.cfg (g.snake.head + g.snake.dir))
    (h : stepOnce g samples = some g') :
    ¬ (g.snake.move).collidesWithSelf ∧
    (g'.gameOver = false ∧ g'.paused = false) := by
  have hcol : ¬ (g.snake.move).collidesWithSelf := by
    rw [Snake.collidesWithSelf_move _ hne, hgrow]
    simp only [Bool.false_eq_true, if_false]
    rw [htail]
    exact Snake.getLast_not_mem_dropLast _ hne hnodup
  refine ⟨hcol, ?_⟩
  rcases stepOnce_cases g samples g' h with
    ⟨hw, rfl⟩ | ⟨hw, hc, rfl⟩ | ⟨hw, hc, hf, f, hpf, rfl⟩ | ⟨hw, hc, hf, rfl⟩
  · rw [Snake.move_head _ hne] at hw
    exact absurd hw hwall
  · exact absurd hc hcol
  · exact ⟨hgo, hp⟩
  · exact ⟨hgo, hp⟩

theorem tail_chase_safe_witness :
    ¬ gTail.snake.move.collidesWithSelf ∧
    (gTailOut.gameOver = false ∧ gTailOut.paused = false) :=
  tail_chase_safe gTail [] gTailOut (by decide) (by decide) (by decide)
    (by decide) (by decide) (by decide) (by decide) (by decide)

/-- The concrete Running state for the C4 witness: the initial snake with one
full interval accumulated. -/
def gRun : GameState :=
  { snake := { body := [⟨16, 12⟩, ⟨15, 12⟩, ⟨14, 12⟩, ⟨13, 12⟩, ⟨12, 12⟩]
               dir := ⟨1, 0⟩, growNext := false }
    food := ⟨0, 0⟩, score := 0, paused := false, gameOver := false
    cfg := defaultConfig, acc := 12/100 }

/-- The state after one plain step of gRun. -/
def gRunOut : GameState :=
  { snake := { body := [⟨17, 12⟩, ⟨16, 12⟩, ⟨15, 12⟩, ⟨14, 12⟩, ⟨13, 12⟩]
               dir := ⟨1, 0⟩, growNext := false }
    food := ⟨0, 0⟩, score := 0, paused := false, gameOver := false
    cfg := defaultConfig, acc := 0 }

/-- C4: a step in Running whose new head hits no wall, no body cell and no
food keeps the body length, puts the new head at old head + direction,
shifts every other segment to its predecessor's former cell, and vacates the
old tail cell. -/
theorem plain_step_shift (g : GameState) (samples : List Vec2i) (g' : GameState)
    (hp : g.paused = false) (hgo : g.gameOver = false)
    (hgrow : g.snake.growNext = false)
    (hne : g.snake.body ≠ [])
    (hnodup : g.snake.body.Nodup)
    (hwall : ¬ outOfGrid g.cfg (g.snake.head + g.snake.dir))
    (hbody : g.snake.head + g.snake.dir ∉ g.snake.body)
    (hfood : g.snake.head + g.snake.dir ≠ g.food)
    (h : stepOnce g samples = some g') :
    g'.snake.body.length = g.snake.body.length ∧
    g'.snake.head = g.snake.head + g.snake.dir ∧
    g'.snake.body = (g.snake.head + g.snake.dir) :: g.snake.body.dropLast ∧
    (∀ i : Nat, i + 1 < g.snake.body.length →
      g'.snake.body[i + 1]? = g.snake.body[i]?) ∧
    g.snake.body.getLast hne ∉ g'.snake.body := by
  have hmh := Snake.move_head g.snake hne
  have hcol : ¬ (g.snake.move).collidesWithSelf := by
    rw [Snake.collidesWithSelf_move _ hne, hgrow]
    simp only [Bool.false_eq_true, if_false]
    intro hmem
    exact hbody (List.dropLast_subset _ hmem)
  rcases stepOnce_cases g samples g' h with
    ⟨hw, rfl⟩ | ⟨hw, hc, rfl⟩ | ⟨hw, hc, hf, f, hpf, rfl⟩ | ⟨hw, hc, hf, rfl⟩
  · rw [hmh] at hw
    exact absurd hw hwall
  · exact absurd hc hcol
  · rw [hmh] at hf
    exact absurd hf hfood
  · have hbody' : (g.snake.move).body =
        (g.snake.head + g.snake.dir) :: g.snake.body.dropLast := by
      rw [Snake.move_body _ hne, hgrow]
      simp
    refine ⟨?_, hmh, hbody', ?_, ?_⟩
    · rw [Snake.move_length _ hne, hgrow]
      simp
    · intro i hi
      show (g.snake.move).body[i + 1]? = g.snake.body[i]?
      rw [hbody', List.getElem?_cons_succ, List.dropLast_eq_take]
      exact List.getElem?_take_of_lt (by omega)
    · show g.snake.body.getLast hne ∉ (g.snake.move).body
      rw [hbody', List.mem_cons, not_or]
      constructor
      · intro heq
        exact hbody (heq ▸ List.getLast_mem hne)
      · exact Snake.getLast_not_mem_dropLast _ hne hnodup

theorem plain_step_shift_witness :
    gRunOut.snake.body.length = gRun.snake.body.length ∧
    gRunOut.snake.head = gRun.snake.head + gRun.snake.dir ∧
    gRunOut.snake.body =
      (gRun.snake.head + gRun.snake.dir) :: gRun.snake.body.dropLast ∧
    gRunOut.snake.body[1]? = gRun.snake.body[0]? ∧
    gRun.snake.body.getLast (by decide) ∉ gRunOut.snake.body := by
  have h := plain_step_shift gRun [] gRunOut (by decide) (by decide) (by decide)
    (by decide) (by decide) (by decide) (by decide) (by decide) (by decide)
  exact ⟨h.1, h.2.1, h.2.2.1, h.2.2.2.1 0 (by decide), h.2.2.2.2⟩

/-- The concrete Running state for the C5 witness: the initial snake with the
food directly ahead of the head. -/
def gEat : GameState :=
  { snake := { body := [⟨16, 12⟩, ⟨15, 12⟩, ⟨14, 12⟩, ⟨13, 12⟩, ⟨12, 12⟩]
               dir := ⟨1, 0⟩, growNext := false }
    food := ⟨17, 12⟩, score := 0, paused := false, gameOver := false
    cfg := defaultConfig, acc := 12/100 }

/-- The state after the eating step of gEat. -/
def gEatOut : GameState :=
  { snake := { body := [⟨17, 12⟩, ⟨16, 12⟩, ⟨15, 12⟩, ⟨14, 12⟩, ⟨13, 12⟩]
               dir := ⟨1, 0⟩, growNext := true }
    food := ⟨0, 0⟩, score := 10, paused := false, gameOver := false
    cfg := defaultConfig, acc := 0 }

/-- C5: a step that lands the head on the food (and collides with nothing)
adds exactly 10 to the score, leaves the body length unchanged on the eating
step while arming the growth flag — so the body grows by exactly 1 on the
following step — and relocates the food to a cell the new body does not
occupy. -/
theorem eat_step (g : GameState) (samples : List Vec2i) (g' : GameState)
    (hgrow : g.snake.growNext = false)
    (hne : g.snake.body ≠ [])
    (hwall : ¬ outOfGrid g.cfg (g.snake.head + g.snake.dir))
    (hnocol : g.snake.head + g.snake.dir ∉ g.snake.body.dropLast)
    (hfood : g.snake.head + g.snake.dir = g.food)
    (h : stepOnce g samples = some g') :
    g'.score = g.score + 10 ∧
    g'.snake.body.length = g.snake.body.length ∧
    g'.snake.growNext = true ∧
    (g'.snake.move).body.length = g'.snake.body.length + 1 ∧
    ¬ g'.snake.occupies g'.food := by
  have hmh := Snake.move_head g.snake hne
  have hcol : ¬ (g.snake.move).collidesWithSelf := by
    rw [Snake.collidesWithSelf_move _ hne, hgrow]
    simp only [Bool.false_eq_true, if_false]
    exact hnocol
  rcases stepOnce_cases g samples g' h with
    ⟨hw, rfl⟩ | ⟨hw, hc, rfl⟩ | ⟨hw, hc, hf, f, hpf, rfl⟩ | ⟨hw, hc, hf, rfl⟩
  · rw [hmh] at hw
    exact absurd hw hwall
  · exact absurd hc hcol
  · have hmne : ((g.snake.move).grow).body ≠ [] := by
      rw [Snake.grow_body]
      exact Snake.move_body_ne_nil _ hne
    refine ⟨rfl, ?_, rfl, ?_, ?_⟩
    · show ((g.snake.move).grow).body.length = g.snake.body.length
      rw [Snake.grow_body, Snake.move_length _ hne, hgrow]
      simp
    · show ((g.snake.move).grow).move.body.length = ((g.snake.move).grow).body.length + 1
      rw [Snake.move_length _ hmne]
      rfl
    · exact placeFood_not_occupies _ samples f hpf
  · rw [hmh] at hf
    exact absurd hfood hf

theorem eat_step_witness :
    gEatOut.score = gEat.score + 10 ∧
    gEatOut.snake.body.length = gEat.snake.body.length ∧
    gEatOut.snake.growNext = true ∧
    (gEatOut.snake.move).body.length = gEatOut.snake.body.length + 1 ∧
    ¬ gEatOut.snake.occupies gEatOut.food :=
  eat_step gEat [⟨0, 0⟩] gEatOut (by decide) (by decide) (by decide) (by decide)
    (by decide) (by decide)

/-- The concrete state for the C6 witness: the snake one cell away from the
right wall. -/
def gWall : GameState :=
  { snake := { body := [⟨31, 12⟩, ⟨30, 12⟩, ⟨29, 12⟩, ⟨28, 12⟩, ⟨27, 12⟩]
               dir := ⟨1, 0⟩, growNext := false }
    food := ⟨0, 0⟩, score := 0, paused := false, gameOver := false
    cfg := defaultConfig, acc := 12/100 }

/-- The state after the wall-hitting step of gWall. -/
def gWallOut : GameState :=
  { snake := { body := [⟨32, 12⟩, ⟨31, 12⟩, ⟨30, 12⟩, ⟨29, 12⟩, ⟨28, 12⟩]
               dir := ⟨1, 0⟩, growNext := false }
    food := ⟨0, 0⟩, score := 0, paused := false, gameOver := true
    cfg := defaultConfig, acc := 0 }

/-- C6: a step whose new head lies outside [0,cols) x [0,rows) sets gameOver
(the violating move itself is the only body mutation), and GameOver is
absorbing for movement: a frame in GameOver changes nothing, direction keys
are ignored, and the pause key never touches the snake nor leaves
GameOver. -/
theorem boundary_gameOver (g : GameState) (samples : List Vec2i)
    (g' : GameState) (hwall : outOfGrid g.cfg (g.snake.move).head)
    (h : stepOnce g samples = some g') :
    (g'.gameOver = true ∧ g'.snake = g.snake.move) ∧
    (∀ (fuel : Nat) (dt : ℚ) (sss : List (List Vec2i)) (g2 : GameState),
      g2.gameOver = true → frameUpdate fuel g2 dt sss = some g2) ∧
    (∀ (g2 : GameState) (d : Vec2i), g2.gameOver = true → pressDir g2 d = g2) ∧
    (∀ g2 : GameState, g2.gameOver = true →
      (pressP g2).snake = g2.snake ∧ (pressP g2).gameOver = true) := by
  refine ⟨?_, ?_, ?_, ?_⟩
  · rcases stepOnce_cases g samples g' h with
      ⟨hw, rfl⟩ | ⟨hw, hc, rfl⟩ | ⟨hw, hc, hf, f, hpf, rfl⟩ | ⟨hw, hc, hf, rfl⟩
    · exact ⟨rfl, rfl⟩
    · exact absurd hwall hw
    · exact absurd hwall hw
    · exact absurd hwall hw
  · intro fuel dt sss g2 hg2
    unfold frameUpdate
    simp [hg2]
  · intro g2 d hg2
    unfold pressDir
    simp [hg2]
  · intro g2 hg2
    exact ⟨rfl, hg2⟩

theorem boundary_gameOver_witness :
    (gWallOut.gameOver = true ∧ gWallOut.snake = gWall.snake.move) ∧
    frameUpdate 30 gWallOut (99/100) [] = some gWallOut ∧
    pressDir gWallOut ⟨0, 1⟩ = gWallOut ∧
    ((pressP gWallOut).snake = gWallOut.snake ∧
      (pressP gWallOut).gameOver = true) := by
  have h := boundary_gameOver gWall [] gWallOut (by decide) (by decide)
  exact ⟨h.1, h.2.1 30 (99/100) [] gWallOut (by decide),
    h.2.2.1 gWallOut ⟨0, 1⟩ (by decide), h.2.2.2 gWallOut (by decide)⟩

/-- The concrete state for the C2 theorems: score 690 with the move interval
the dynamics produce after thirteen speed-ups (0.12 * 0.92^13, still above
the 0.04 floor), the food directly ahead of the head. -/
def gFast : GameState :=
  { snake := { body := [⟨16, 12⟩, ⟨15, 12⟩, ⟨14, 12⟩, ⟨13, 12⟩, ⟨12, 12⟩]
               dir := ⟨1, 0⟩, growNext := false }
    food := ⟨17, 12⟩, score := 690, paused := false, gameOver := false
    cfg := { cellSize := 20, cols := 32, rows := 24
             moveInterval := 12/100 * (92/100)^13 }
    acc := 12/100 * (92/100)^13 }

/-- The state after the eating step of gFast: score 700, interval multiplied
once more. -/
def gFastOut : GameState :=
  { snake := { body := [⟨17, 12⟩, ⟨16, 12⟩, ⟨15, 12⟩, ⟨14, 12⟩, ⟨13, 12⟩]
               dir := ⟨1, 0⟩, growNext := true }
    food := ⟨0, 0⟩, score := 700, paused := false, gameOver := false
    cfg := { cellSize := 20, cols := 32, rows := 24
             moveInterval := 12/100 * (92/100)^13 * (92/100) }
    acc := 0 }

/-- C2 (amended): on every step that eats the food, the new score is the old
score plus 10, and the new move interval is exactly: the old interval
multiplied by 0.92 when the new score is a multiple of 50 and the old
interval is still above 0.04, and the old interval unchanged otherwise — so
whenever the score reaches a multiple of 50 while the interval is above
0.04, the interval IS multiplied by 0.92; the 0.04 floor is a guard tested
before multiplying, not a clamp of the result, so a single multiplication
may land below 0.04 (with the configured 0.12 start this happens at score
700, reaching 0.12 * 0.92^14, roughly 0.0374); and once the interval is at
or below 0.04 it never changes again. -/
theorem speedup_behaviour (g : GameState) (samples : List Vec2i)
    (g' : GameState)
    (hgrow : g.snake.growNext = false)
    (hne : g.snake.body ≠ [])
    (hwall : ¬ outOfGrid g.cfg (g.snake.head + g.snake.dir))
    (hnocol : g.snake.head + g.snake.dir ∉ g.snake.body.dropLast)
    (hfood : g.snake.head + g.snake.dir = g.food)
    (h : stepOnce g samples = some g') :
    g'.score = g.score + 10 ∧
    g'.cfg.moveInterval =
      (if (g.score + 10) % 50 = 0 ∧ 4/100 < g.cfg.moveInterval then
        g.cfg.moveInterval * (92/100)
      else g.cfg.moveInterval) ∧
    ((g.score + 10) % 50 = 0 ∧ 4/100 < g.cfg.moveInterval →
      g'.cfg.moveInterval = g.cfg.moveInterval * (92/100)) ∧
    (g.cfg.moveInterval ≤ 4/100 →
      g'.cfg.moveInterval = g.cfg.moveInterval) := by
  have hmh := Snake.move_head g.snake hne
  have hcol : ¬ (g.snake.move).collidesWithSelf := by
    rw [Snake.collidesWithSelf_move _ hne, hgrow]
    simp only [Bool.false_eq_true, if_false]
    exact hnocol
  rcases stepOnce_cases g samples g' h with
    ⟨hw, rfl⟩ | ⟨hw, hc, rfl⟩ | ⟨hw, hc, hf, f, hpf, rfl⟩ | ⟨hw, hc, hf, rfl⟩
  · rw [hmh] at hw
    exact absurd hw hwall
  · exact absurd hc hcol
  · have hchar :
        (if (g.score + 10) % 50 = 0 ∧ 4/100 < g.cfg.moveInterval then
            { g.cfg with moveInterval := g.cfg.moveInterval * (92/100) }
          else g.cfg).moveInterval =
        (if (g.score + 10) % 50 = 0 ∧ 4/100 < g.cfg.moveInterval then
            g.cfg.moveInterval * (92/100)
          else g.cfg.moveInterval) := by
      by_cases hcond : (g.score + 10) % 50 = 0 ∧ 4/100 < g.cfg.moveInterval
      · rw [if_pos hcond, if_pos hcond]
      · rw [if_neg hcond, if_neg hcond]
    refine ⟨rfl, hchar, fun hcond => ?_, fun hle => ?_⟩
    · rw [hchar, if_pos hcond]
    · have hcond : ¬ ((g.score + 10) % 50 = 0 ∧ 4/100 < g.cfg.moveInterval) :=
        fun hc2 => absurd hc2.2 (not_lt.mpr hle)
      rw [hchar, if_neg hcond]
  · rw [hmh] at hf
    exact absurd hfood hf

theorem speedup_behaviour_witness :
    gFastOut.score = gFast.score + 10 ∧
    gFastOut.cfg.moveInterval =
      (if (gFast.score + 10) % 50 = 0 ∧ 4/100 < gFast.cfg.moveInterval then
        gFast.cfg.moveInterval * (92/100)
      else gFast.cfg.moveInterval) ∧
    gFastOut.cfg.moveInterval = gFast.cfg.moveInterval * (92/100) := by
  have h := speedup_behaviour gFast [⟨0, 0⟩] gFastOut (by decide) (by decide)
    (by decide) (by decide) (by decide) (by decide)
  exact ⟨h.1, h.2.1, h.2.2.1 (by decide)⟩

set_option maxRecDepth 4000 in
/-- C2 (counterexample to the claim as stated): at score 690 with interval
0.12 * 0.92^13 — still above 0.04, and exactly the value the score/interval
dynamics of lines 168-171 produce after 70 pickups, as the eatUpdate
conjunct records — the step to score 700 multiplies the interval to
0.12 * 0.92^14, which is strictly below the claimed floor of 0.04. -/
theorem speedup_counterexample :
    (4/100 : ℚ) < gFast.cfg.moveInterval ∧
    ((stepOnce gFast [⟨0, 0⟩]).map fun g => g.cfg.moveInterval) =
      some (12/100 * (92/100)^14) ∧
    (12/100 * (92/100)^14 : ℚ) < 4/100 ∧
    (eatUpdate^[70] (0, 12/100)).2 = 12/100 * (92/100)^14 := by
  refine ⟨by decide, by decide, by decide, by decide⟩
